import Mathlib

/-!
Verification of the one-dimensional traffic simulation library (`src/lib.rs`).

The library models cars on a single lane interacting through continuous
forces, plus speed-camera enforcement zones whose boundaries are marker
"flags" that override a passing car's maximum speed.

Embedding conventions:
* `Cartessian1D<f64>` positions, velocities and forces are one-dimensional,
  so they are embedded as single scalars.  `f64` arithmetic is embedded as
  exact rational arithmetic (`ℚ`); the transcendental `tanh` used by
  `drift_force` is embedded over `ℝ` with `Real.tanh`.
* `&mut` methods become functions returning the updated value.
* The `unreachable!()` arm of `TrafficItem::set_max_speed` becomes `none`
  of an `Option`-valued function.
* The Euclidean distance of two one-dimensional points is the absolute
  difference of their coordinates.
-/

namespace Traffic

/-- Embedding of `struct Car` (fields in source order; `pos`, `vel` are the
single coordinates of the `Cartessian1D<f64>` fields). -/
structure Car where
  pos : ℚ
  vel : ℚ
  lane : ℕ
  size : ℚ
  max_speed : ℚ
  drift : ℚ
  mass : ℚ
  behavior : ℚ
  own_max_speed : ℚ
  deriving Repr, DecidableEq

/-- Embedding of `Car::new`: zero position and velocity, mass 1, every other
field taken from the arguments, with no validation whatsoever. -/
def Car.new (lane : ℕ) (size max_speed drift behavior own_max_speed : ℚ) : Car :=
  { pos := 0
    vel := 0
    lane := lane
    size := size
    max_speed := max_speed
    drift := drift
    mass := 1
    behavior := behavior
    own_max_speed := own_max_speed }

/-- Embedding of `Car::drift_force`: `drift * (max_speed - vel).tanh()`,
over `ℝ` because of the transcendental `tanh`. -/
noncomputable def Car.drift_force (c : Car) : ℝ :=
  (c.drift : ℝ) * Real.tanh ((c.max_speed : ℝ) - (c.vel : ℝ))

/-- Embedding of `Car::set_max_speed`: `max_speed = (1.0 + behavior) * speed_limit`. -/
def Car.set_max_speed (c : Car) (speed_limit : ℚ) : Car :=
  { c with max_speed := (1 + c.behavior) * speed_limit }

/-- Embedding of `Car::safe_distance` (`dir == true` means "in front of self"):
`size + v * (2.0 + 0.05 * v)` when `dir`, else `size`.  The literal `0.05`
is the rational `1/20`. -/
def Car.safe_distance (c : Car) (dir : Bool) : ℚ :=
  if dir then c.size + c.vel * (2 + (1 / 20) * c.vel) else c.size

/-- Embedding of `Car::force_from`: `r` is the Euclidean distance of the two
positions; when `other` is strictly ahead the force is
`-4/r * (12 t^12 - 6 t^6)` with `t = safe_distance(true)/r`, otherwise the
sign is flipped and `safe_distance(false)` is used. -/
def Car.force_from (self other : Car) : ℚ :=
  let r := |self.pos - other.pos|
  if self.pos < other.pos then
    let sd := self.safe_distance true
    let t := sd / r
    let f := -4 / r * (12 * t ^ 12 - 6 * t ^ 6)
    f
  else
    let sd := self.safe_distance false
    let t := sd / r
    let f := 4 / r * (12 * t ^ 12 - 6 * t ^ 6)
    f

/-- Embedding of `struct SpeedCam`. -/
structure SpeedCam where
  pos : ℚ
  speed_limit : ℚ
  length : ℚ
  check_average : Bool
  deriving Repr, DecidableEq

/-- Embedding of `SpeedCam::new`: stores the four arguments unchanged, with
no validation whatsoever. -/
def SpeedCam.new (pos speed_limit length : ℚ) (check_average : Bool) : SpeedCam :=
  { pos := pos, speed_limit := speed_limit, length := length,
    check_average := check_average }

/-- Embedding of `SpeedCam::set_max_speed`: delegates to
`car.set_max_speed(self.speed_limit)`. -/
def SpeedCam.set_max_speed (s : SpeedCam) (car : Car) : Car :=
  car.set_max_speed s.speed_limit

/-- Embedding of `SpeedCam::force_to`: zero when `car.vel < speed_limit`,
else `-2.0 / length * vel^2`. -/
def SpeedCam.force_to (s : SpeedCam) (car : Car) : ℚ :=
  if car.vel < s.speed_limit then 0 else -2 / s.length * car.vel ^ 2

/-- Embedding of `struct SpeedCamFlag`.  The borrowed reference
`cam : &'a SpeedCam` is embedded as the (immutable) referenced value. -/
structure SpeedCamFlag where
  pos : ℚ
  status : Bool
  cam : SpeedCam
  deriving Repr, DecidableEq

/-- Embedding of `SpeedCamFlag::new`. -/
def SpeedCamFlag.new (pos : ℚ) (status : Bool) (cam : SpeedCam) : SpeedCamFlag :=
  { pos := pos, status := status, cam := cam }

/-- Embedding of `SpeedCam::flags`: the entry flag at `pos - length` with
`status = true` and the exit flag at `pos` with `status = false`, both
referencing the cam itself. -/
def SpeedCam.flags (s : SpeedCam) : SpeedCamFlag × SpeedCamFlag :=
  (SpeedCamFlag.new (s.pos - s.length) true s,
   SpeedCamFlag.new s.pos false s)

/-- Embedding of `SpeedCamFlag::set_max_speed`: when `status` holds it
invokes `cam.set_max_speed(other)`, otherwise it restores
`other.max_speed = other.own_max_speed`. -/
def SpeedCamFlag.set_max_speed (f : SpeedCamFlag) (other : Car) : Car :=
  if f.status then f.cam.set_max_speed other
  else { other with max_speed := other.own_max_speed }

/-- Embedding of `enum TrafficItem`. -/
inductive TrafficItem where
  | car (c : Car)
  | flag (f : SpeedCamFlag)
  deriving Repr, DecidableEq

/-- Embedding of `TrafficItem::pos`: the active variant's position. -/
def TrafficItem.pos : TrafficItem → ℚ
  | .car c => c.pos
  | .flag f => f.pos

/-- Embedding of `TrafficItem::set_max_speed`: the source mutates `other`
in place in the `(Flag, Car)` arm and hits `unreachable!()` in every other
arm; the embedding returns the updated `other` in the legal arm and `none`
where the source panics. -/
def TrafficItem.set_max_speed : TrafficItem → TrafficItem → Option TrafficItem
  | .flag f, .car c => some (.car (f.set_max_speed c))
  | _, _ => none

/-- Division with the zero divisor made an explicit failure, used to track
where `Car::force_from` would divide by zero in IEEE arithmetic. -/
def divChecked (a b : ℚ) : Option ℚ :=
  if b = 0 then none else some (a / b)

/-- `Car::force_from` with every division routed through `divChecked`,
making the divisions by the separation `r` explicit fallible steps;
otherwise a verbatim copy of `Car.force_from`. -/
def Car.force_fromChecked (self other : Car) : Option ℚ :=
  let r := |self.pos - other.pos|
  if self.pos < other.pos then do
    let t ← divChecked (self.safe_distance true) r
    let c ← divChecked (-4) r
    pure (c * (12 * t ^ 12 - 6 * t ^ 6))
  else do
    let t ← divChecked (self.safe_distance false) r
    let c ← divChecked 4 r
    pure (c * (12 * t ^ 12 - 6 * t ^ 6))

/-- The Euclidean separation as the spec words it, for the refinement
statement of the force law. -/
def specSeparation (self other : Car) : ℚ := |self.pos - other.pos|

/-- The spec's "ahead" safe distance: `size + velocity·(2+0.05·velocity)`. -/
def specAheadGap (c : Car) : ℚ := c.size + c.vel * (2 + (1 / 20) * c.vel)

/-- The force law exactly as the spec states it: with `r` the Euclidean
separation, `−4/r·(12t¹²−6t⁶)` at `t = (size + v(2+0.05v))/r` when the
other car is ahead, and `+4/r·(12t¹²−6t⁶)` at `t = size/r` when it is
behind. -/
def specForce (self other : Car) : ℚ :=
  if self.pos < other.pos then
    -4 / specSeparation self other *
      (12 * (specAheadGap self / specSeparation self other) ^ 12 -
        6 * (specAheadGap self / specSeparation self other) ^ 6)
  else
    4 / specSeparation self other *
      (12 * (self.size / specSeparation self other) ^ 12 -
        6 * (self.size / specSeparation self other) ^ 6)

/-- Helper: `tanh` is positive at positive arguments. -/
lemma tanh_pos_of_pos {x : ℝ} (hx : 0 < x) : 0 < Real.tanh x := by
  rw [Real.tanh_eq_sinh_div_cosh]
  exact div_pos (Real.sinh_pos_iff.mpr hx) (Real.cosh_pos x)

/-- Helper: `tanh` is negative at negative arguments. -/
lemma tanh_neg_of_neg {x : ℝ} (hx : x < 0) : Real.tanh x < 0 := by
  have h : 0 < Real.tanh (-x) := tanh_pos_of_pos (by linarith)
  rw [Real.tanh_neg] at h
  linarith

/-- C1: invoking a flag's transition `SpeedCamFlag::set_max_speed` on a car
sets its `max_speed` to `(1 + behavior) * speed_limit` of the flag's cam
when the flag is an entry flag (`status = true`), and to the car's
`own_max_speed` when it is an exit flag (`status = false`). -/
theorem flag_transition_sets_max_speed (f : SpeedCamFlag) (c : Car) :
    (f.set_max_speed c).max_speed =
      if f.status then (1 + c.behavior) * f.cam.speed_limit else c.own_max_speed := by
  unfold SpeedCamFlag.set_max_speed SpeedCam.set_max_speed Car.set_max_speed
  cases hs : f.status <;> simp [hs]

/-- C2: for cars at distinct positions, `Car::force_from` computes exactly
the spec's force law: `-4/r·(12t¹²−6t⁶)` with `t = (size + v(2+0.05v))/r`
when the other car is ahead, and the mirrored `+4/r·(12t¹²−6t⁶)` with
`t = size/r` when it is behind, `r` the Euclidean separation. -/
theorem force_from_matches_spec (self other : Car) (h : self.pos ≠ other.pos) :
    self.force_from other = specForce self other := by
  unfold Car.force_from specForce specSeparation specAheadGap Car.safe_distance
  rcases lt_trichotomy self.pos other.pos with hlt | heq | hgt
  · simp [hlt]
  · exact absurd heq h
  · simp [not_lt.mpr hgt.le]

/-- Witness for C2 at concrete cars at positions 0 and 5. -/
theorem force_from_matches_spec_witness :
    Car.force_from (Car.new 0 1 10 1 0 10) { Car.new 0 1 10 1 0 10 with pos := 5 } =
      specForce (Car.new 0 1 10 1 0 10) { Car.new 0 1 10 1 0 10 with pos := 5 } :=
  force_from_matches_spec _ _ (by decide)

/-- C3 (failing input): the constructors perform no validation at all; a
`Car` with negative size and a `SpeedCam` with negative speed limit and
negative length are constructed and stored verbatim instead of being
rejected. -/
theorem constructors_accept_nonpositive :
    (Car.new 0 (-1) 10 1 0 10).size = -1 ∧
    (SpeedCam.new 0 (-5) (-100) false).speed_limit = -5 ∧
    (SpeedCam.new 0 (-5) (-100) false).length = -100 :=
  ⟨rfl, rfl, rfl⟩

/-- C4: `TrafficItem::set_max_speed` performs the flag-to-car transition on
a `(Flag, Car)` pairing and fails (the source's `unreachable!()` panic,
embedded as `none`) on every other pairing, never silently no-oping. -/
theorem trafficItem_set_max_speed_dispatch :
    (∀ (f : SpeedCamFlag) (c : Car),
        TrafficItem.set_max_speed (.flag f) (.car c) = some (.car (f.set_max_speed c))) ∧
    (∀ (c d : Car), TrafficItem.set_max_speed (.car c) (.car d) = none) ∧
    (∀ (c : Car) (f : SpeedCamFlag),
        TrafficItem.set_max_speed (.car c) (.flag f) = none) ∧
    (∀ (f g : SpeedCamFlag),
        TrafficItem.set_max_speed (.flag f) (.flag g) = none) :=
  ⟨fun _ _ => rfl, fun _ _ => rfl, fun _ _ => rfl, fun _ _ => rfl⟩

/-- C5: `SpeedCam::force_to` returns zero when the car's velocity is
strictly under the speed limit, and otherwise the quadratic braking force
`-2/length·velocity²`. -/
theorem force_to_brakes (s : SpeedCam) (c : Car) :
    (c.vel < s.speed_limit → s.force_to c = 0) ∧
    (¬ c.vel < s.speed_limit → s.force_to c = -2 / s.length * c.vel ^ 2) := by
  constructor <;> intro h <;> simp [SpeedCam.force_to, h]

/-- Witness for C5: a slow car gets zero force, a car at velocity 10 under
limit 5 gets the quadratic brake. -/
theorem force_to_brakes_witness :
    SpeedCam.force_to (SpeedCam.new 500 5 100 false) (Car.new 0 1 10 1 0 10) = 0 ∧
    SpeedCam.force_to (SpeedCam.new 500 5 100 false)
        { Car.new 0 1 10 1 0 10 with vel := 10 } =
      -2 / (SpeedCam.new 500 5 100 false).length *
        ({ Car.new 0 1 10 1 0 10 with vel := 10 } : Car).vel ^ 2 :=
  ⟨(force_to_brakes _ _).1 (by decide), (force_to_brakes _ _).2 (by decide)⟩

/-- C6: `SpeedCam::flags` returns exactly the entry flag at
`pos - length` with `status = true` and the exit flag at `pos` with
`status = false`, both holding the cam itself. -/
theorem flags_entry_exit (s : SpeedCam) :
    (s.flags).1.pos = s.pos - s.length ∧ (s.flags).1.status = true ∧
    (s.flags).1.cam = s ∧
    (s.flags).2.pos = s.pos ∧ (s.flags).2.status = false ∧ (s.flags).2.cam = s :=
  ⟨rfl, rfl, rfl, rfl, rfl, rfl⟩

/-- C7: `Car::set_max_speed` assigns `max_speed ← (1+behavior)·limit` and
leaves every other field of the car, `own_max_speed` included, unchanged. -/
theorem car_set_max_speed_frame (c : Car) (limit : ℚ) :
    (c.set_max_speed limit).max_speed = (1 + c.behavior) * limit ∧
    (c.set_max_speed limit).pos = c.pos ∧
    (c.set_max_speed limit).vel = c.vel ∧
    (c.set_max_speed limit).lane = c.lane ∧
    (c.set_max_speed limit).size = c.size ∧
    (c.set_max_speed limit).drift = c.drift ∧
    (c.set_max_speed limit).mass = c.mass ∧
    (c.set_max_speed limit).behavior = c.behavior ∧
    (c.set_max_speed limit).own_max_speed = c.own_max_speed :=
  ⟨rfl, rfl, rfl, rfl, rfl, rfl, rfl, rfl, rfl⟩

/-- C8 (counterexample): for a car with negative drift gain (`drift = -1`,
accepted by the unchecked constructor) the speed deficit is positive yet
`drift_force` is negative, so the sign of `drift_force` does not follow
the sign of the deficit for every car. -/
theorem drift_force_sign_counterexample :
    (0 : ℝ) < ((Car.new 0 1 1 (-1) 0 10).max_speed : ℝ) -
        ((Car.new 0 1 1 (-1) 0 10).vel : ℝ) ∧
    Car.drift_force (Car.new 0 1 1 (-1) 0 10) < 0 := by
  constructor
  · norm_num [Car.new]
  · have h : (0 : ℝ) < Real.tanh (((1 : ℚ) : ℝ) - ((0 : ℚ) : ℝ)) :=
      tanh_pos_of_pos (by norm_num)
    unfold Car.drift_force Car.new
    push_cast at h ⊢
    nlinarith [h]

/-- C8 (amended): `drift_force` equals `drift · tanh(max_speed − velocity)`,
is total, and whenever the drift gain is positive its sign follows the sign
of the speed deficit. -/
theorem drift_force_formula_and_sign (c : Car) (h : 0 < c.drift) :
    Car.drift_force c = (c.drift : ℝ) * Real.tanh ((c.max_speed : ℝ) - (c.vel : ℝ)) ∧
    ((c.vel : ℝ) < (c.max_speed : ℝ) → 0 < c.drift_force) ∧
    ((c.max_speed : ℝ) = (c.vel : ℝ) → c.drift_force = 0) ∧
    ((c.max_speed : ℝ) < (c.vel : ℝ) → c.drift_force < 0) := by
  have hd : (0 : ℝ) < (c.drift : ℝ) := by exact_mod_cast h
  refine ⟨rfl, fun hlt => ?_, fun heq => ?_, fun hgt => ?_⟩
  · exact mul_pos hd (tanh_pos_of_pos (by linarith))
  · simp [Car.drift_force, heq, Real.tanh_zero]
  · exact mul_neg_of_pos_of_neg hd (tanh_neg_of_neg (by linarith))

/-- Witness for the amended C8: a car with drift 1 at rest under ceiling 1
has a positive deficit and a positive drift force. -/
theorem drift_force_formula_and_sign_witness :
    0 < (Car.new 0 1 1 1 0 10).drift ∧ 0 < Car.drift_force (Car.new 0 1 1 1 0 10) :=
  ⟨by decide, (drift_force_formula_and_sign _ (by decide)).2.1 (by norm_num [Car.new])⟩

/-- C9: `Car::force_from` has no minimum-separation clamp: at equal
positions the separation `r` is zero and the division-by-zero-checked
evaluation fails (every division's divisor is the zero separation), while
at distinct positions every division is well-defined and the checked
evaluation returns exactly `force_from`. -/
theorem force_from_zero_separation (self other : Car) :
    (self.pos = other.pos → self.force_fromChecked other = none) ∧
    (self.pos ≠ other.pos →
      self.force_fromChecked other = some (self.force_from other)) := by
  constructor
  · intro h
    simp [Car.force_fromChecked, divChecked, h]
  · intro h
    have hr : |self.pos - other.pos| ≠ 0 := by
      simpa [sub_eq_zero] using h
    unfold Car.force_fromChecked Car.force_from
    split <;> simp [divChecked, hr]

/-- Witness for C9: coincident cars make the checked force fail; separated
cars make it return the unchecked force. -/
theorem force_from_zero_separation_witness :
    Car.force_fromChecked (Car.new 0 1 10 1 0 10) (Car.new 0 1 10 1 0 10) = none ∧
    Car.force_fromChecked (Car.new 0 1 10 1 0 10)
        { Car.new 0 1 10 1 0 10 with pos := 5 } =
      some (Car.force_from (Car.new 0 1 10 1 0 10)
        { Car.new 0 1 10 1 0 10 with pos := 5 }) :=
  ⟨(force_from_zero_separation _ _).1 rfl,
   (force_from_zero_separation _ _).2 (by decide)⟩

/-- C10: no operation of `SpeedCam` or of its flags reads `check_average`:
flipping the field changes neither `set_max_speed`, nor `force_to`, nor the
positions and statuses of the produced flags, nor the flags' transitions on
any car. -/
theorem check_average_never_read (s : SpeedCam) (b : Bool) (c : Car) :
    ({ s with check_average := b } : SpeedCam).set_max_speed c = s.set_max_speed c ∧
    ({ s with check_average := b } : SpeedCam).force_to c = s.force_to c ∧
    (({ s with check_average := b } : SpeedCam).flags).1.pos = (s.flags).1.pos ∧
    (({ s with check_average := b } : SpeedCam).flags).1.status = (s.flags).1.status ∧
    (({ s with check_average := b } : SpeedCam).flags).2.pos = (s.flags).2.pos ∧
    (({ s with check_average := b } : SpeedCam).flags).2.status = (s.flags).2.status ∧
    (({ s with check_average := b } : SpeedCam).flags).1.set_max_speed c =
      (s.flags).1.set_max_speed c ∧
    (({ s with check_average := b } : SpeedCam).flags).2.set_max_speed c =
      (s.flags).2.set_max_speed c :=
  ⟨rfl, rfl, rfl, rfl, rfl, rfl, rfl, rfl⟩

end Traffic
